import Mathlib

/-!
Verification development for the spark-commodities/api-code-samples scripts.

The five Python scripts share, verbatim, the HTTP helpers `do_api_post_query`
and `do_api_get_query`, the `get_access_token` token-exchange client and the
base64 Authorization-header construction; they differ in the token-request
JSON body, in `retrieve_credentials`, and in how each data-fetching function
assembles its query string. The shared code is embedded once in the
namespace `SparkApi`; the per-script differences live in one namespace per
script.
-/

set_option maxHeartbeats 1000000

namespace SparkApi

/-- JSON values as produced by Python `json.loads`: null, booleans, integer
numbers, strings, arrays and objects (association lists; keys are unique
after parsing). Floating-point numbers do not occur in any value these
claims touch and are not modelled. -/
inductive Json where
  | null : Json
  | bool (b : Bool) : Json
  | num (n : Int) : Json
  | str (s : String) : Json
  | arr (elems : List Json) : Json
  | obj (fields : List (String × Json)) : Json
deriving Repr

/-- Python `content[key]` on a parsed JSON value: `some` the mapped value on
an object that has the key, `none` when the key is missing (KeyError) or the
value is not an object (TypeError). -/
def Json.getKey : Json → String → Option Json
  | .obj fields, k => fields.lookup k
  | _, _ => none

/-- Python slicing `x[:5]` succeeds on strings and lists and raises a
TypeError on every other JSON value (numbers, booleans, null, objects). -/
def Json.sliceable : Json → Bool
  | .str _ => true
  | .arr _ => true
  | _ => false

/-- HTTP response as the scripts see it: the numeric status code and the raw
body text that `response.read()` yields. Redirects are resolved by urllib
before the scripts see the response, so this is the final response. -/
structure HttpResponse where
  status : Nat
  body : String
deriving Repr, DecidableEq

/-- Outcome of running one of the Python helper functions: a normal return,
a `sys.exit` with its exit code, a failed `assert` carrying its message
(the raw response body, in these scripts), or another uncaught exception
(KeyError, ValueError, IndexError, JSON decode error). -/
inductive PyOutcome (α : Type) where
  | ok (a : α)
  | exited (code : Nat)
  | assertFailed (msg : String)
  | raised (msg : String)
deriving Repr

/-- Fixed API base URL shared by all five scripts. -/
def API_BASE_URL : String := "https://api.sparkcommodities.com"

/-- urllib `urljoin` as the scripts use it: the base URL has no path and
every uri passed in starts with a slash, in which case RFC 3986 resolution
is plain concatenation. -/
def urljoin (base uri : String) : String := base ++ uri

/-- urllib `request.urlopen` on the final response (redirects already
followed): the error processor raises HTTPError (carrying the status code)
for every final status outside 200-299 — redirect statuses that could not
be followed included — and hands a 2xx response back. -/
def urlopen (resp : HttpResponse) : Except Nat HttpResponse :=
  if 200 ≤ resp.status ∧ resp.status ≤ 299 then .ok resp
  else .error resp.status

/-- `do_api_post_query` of spark_api_example.py lines 78-100, identical in
spark_price_releases.py and the three tutorial scripts. `loads` stands for
`json.loads` on the raw body; `optimized` is true when Python runs with -O,
which strips `assert` statements. The server's response is an explicit
input; an HTTPError is printed and turns into `sys.exit 1`. -/
def do_api_post_query (loads : String → Except String Json) (optimized : Bool)
    (resp : HttpResponse) : PyOutcome Json :=
  match urlopen resp with
  | .error _ => .exited 1
  | .ok response =>
    let resp_content := response.body
    if optimized = false ∧ response.status ≠ 201 then
      .assertFailed resp_content
    else
      match loads resp_content with
      | .error e => .raised e
      | .ok content => .ok content

/-- `do_api_get_query` of spark_api_example.py lines 103-128, identical in
the other four scripts; the expected status is 200 instead of 201. -/
def do_api_get_query (loads : String → Except String Json) (optimized : Bool)
    (resp : HttpResponse) : PyOutcome Json :=
  match urlopen resp with
  | .error _ => .exited 1
  | .ok response =>
    let resp_content := response.body
    if optimized = false ∧ response.status ≠ 200 then
      .assertFailed resp_content
    else
      match loads resp_content with
      | .error e => .raised e
      | .ok content => .ok content

/-- Headers that `do_api_get_query` builds for every GET: the bearer token
and an Accept header. -/
def bearerHeaders (access_token : String) : List (String × String) :=
  [("Authorization", "Bearer " ++ access_token),
   ("Accept", "application/json")]

/-- UTF-8 bytes of one character, as Python `str.encode` produces them. -/
def utf8Bytes (c : Char) : List Nat :=
  let n := c.toNat
  if n < 128 then [n]
  else if n < 2048 then [192 + n / 64, 128 + n % 64]
  else if n < 65536 then [224 + n / 4096, 128 + n / 64 % 64, 128 + n % 64]
  else [240 + n / 262144, 128 + n / 4096 % 64, 128 + n / 64 % 64, 128 + n % 64]

/-- Python `str.encode()`: the UTF-8 byte sequence of a string. -/
def pyEncode (s : String) : List Nat :=
  s.data.flatMap utf8Bytes

/-- Digit of the RFC 4648 base64 alphabet. -/
def b64Digit (n : Nat) : Char :=
  "ABCDEFGHIJKLMNOPQRSTUVWXYZabcdefghijklmnopqrstuvwxyz0123456789+/".data.getD n '?'

/-- RFC 4648 base64 of a byte list, grouping three bytes into four digits
and padding a short final group with `=`, as Python `base64.b64encode`. -/
def b64EncodeBytes : List Nat → List Char
  | b1 :: b2 :: b3 :: rest =>
    b64Digit (b1 / 4) :: b64Digit (b1 % 4 * 16 + b2 / 16) ::
      b64Digit (b2 % 16 * 4 + b3 / 64) :: b64Digit (b3 % 64) :: b64EncodeBytes rest
  | [b1, b2] =>
    [b64Digit (b1 / 4), b64Digit (b1 % 4 * 16 + b2 / 16), b64Digit (b2 % 16 * 4), '=']
  | [b1] =>
    [b64Digit (b1 / 4), b64Digit (b1 % 4 * 16), '=', '=']
  | [] => []

/-- Python `b64encode(bytes).decode()`: the base64 text of a byte list. -/
def b64encode (bytes : List Nat) : String :=
  String.mk (b64EncodeBytes bytes)

/-- Headers built by `get_access_token`, identical in all five scripts
(spark_api_example.py lines 147-152): the Authorization value is the bare
base64 of `client_id:client_secret` — the code writes no scheme name in
front of it. -/
def tokenHeaders (client_id client_secret : String) : List (String × String) :=
  let payload := pyEncode (client_id ++ ":" ++ client_secret)
  [("Authorization", b64encode payload),
   ("Accept", "application/json"),
   ("Content-Type", "application/json")]

/-- POST request handed to `do_api_post_query`: the uri joined onto
API_BASE_URL, the JSON body (sent on the wire as `json.dumps` of it) and
the headers. -/
structure PostRequest where
  uri : String
  body : Json
  headers : List (String × String)
deriving Repr

/-- Code of `get_access_token` after the POST returns, identical in all five
scripts: the success print evaluates `content` at "accessToken" (a missing
key is a KeyError), slices that value for display (a TypeError unless it is
sliceable), then reads `content` at "expiresIn" (a missing key is a
KeyError); the function returns the "accessToken" value only. -/
def get_access_token_result (content : Json) : PyOutcome Json :=
  match content.getKey "accessToken" with
  | none => .raised "KeyError: accessToken"
  | some tok =>
    if tok.sliceable then
      match content.getKey "expiresIn" with
      | none => .raised "KeyError: expiresIn"
      | some _ => .ok tok
    else .raised "TypeError: accessToken not sliceable"

/-- `get_access_token` end to end: the POST via `do_api_post_query`, then
the parse-and-return code. The request body and headers do not influence
which response the abstract server sends, so the response stays an explicit
input. -/
def get_access_token (loads : String → Except String Json) (optimized : Bool)
    (resp : HttpResponse) : PyOutcome Json :=
  match do_api_post_query loads optimized resp with
  | .ok content => get_access_token_result content
  | .exited c => .exited c
  | .assertFailed m => .assertFailed m
  | .raised m => .raised m

/-- Python file reading, character by character: a newline closes a line and
stays on it (as with `readline` and `readlines`); a trailing unterminated
segment is a final line; `acc` holds the current line reversed. -/
def readlinesAux : List Char → List Char → List String
  | [], [] => []
  | [], acc => [String.mk acc.reverse]
  | c :: rest, acc =>
    if c = '\n' then String.mk (acc.reverse ++ ['\n']) :: readlinesAux rest []
    else readlinesAux rest (c :: acc)

/-- Python `fp.readlines()` on the whole file content. -/
def readlines (s : String) : List String := readlinesAux s.data []

/-- Python `s.split(char 44)` on characters: splits at every comma, so n
commas give n+1 (possibly empty) fields. -/
def splitCommas : List Char → List (List Char)
  | [] => [[]]
  | c :: rest =>
    if c = ',' then [] :: splitCommas rest
    else
      match splitCommas rest with
      | [] => [[c]]
      | p :: ps => (c :: p) :: ps

/-- Python comma split on strings. -/
def pySplitComma (s : String) : List String :=
  (splitCommas s.data).map String.mk

/-- Python `needle in hay` on strings: needle occurs contiguously in hay. -/
def pyContains (hay needle : String) : Bool :=
  hay.data.tails.any (fun t => needle.data.isPrefixOf t)

/-- Python `l.replace` removing every newline character, as the readlines
variants of retrieve_credentials do to each line. -/
def stripNewlines (s : String) : String :=
  String.mk (s.data.filter (fun c => c ≠ '\n'))

end SparkApi

namespace SparkApiExample

/-- `retrieve_credentials` of spark_api_example.py, file branch (lines
52-75): `readline` keeps the trailing newline, the header check is a
substring test on the first line, and the second line is split at commas
and unpacked into exactly two names — a ValueError unless there are exactly
two fields. At end of file `readline` returns the empty string. -/
def retrieve_credentials (file : String) : SparkApi.PyOutcome (String × String) :=
  let first_line := (SparkApi.readlines file).getD 0 ""
  if SparkApi.pyContains first_line "clientId,clientSecret" then
    let second_line := (SparkApi.readlines file).getD 1 ""
    match SparkApi.pySplitComma second_line with
    | [client_id, client_secret] => .ok (client_id, client_secret)
    | _ => .raised "ValueError: unpack"
  else .raised "RuntimeError: not a credentials file"

/-- JSON body of the token POST, spark_api_example.py lines 153-156. -/
def tokenBody : SparkApi.Json :=
  .obj [("grantType", .str "clientCredentials"),
        ("scopes", .str "read:lng-freight-prices,read:routes")]

/-- Token-exchange request built by `get_access_token` in
spark_api_example.py. -/
def tokenRequest (client_id client_secret : String) : SparkApi.PostRequest :=
  ⟨"/oauth/token/", tokenBody, SparkApi.tokenHeaders client_id client_secret⟩

end SparkApiExample

namespace SparkPriceReleases

/-- `retrieve_credentials` of spark_price_releases.py, file branch (lines
52-74): `readlines` with every newline removed from each line, an
exact-equality header check accepting two spellings, and `lines` at index 1
split at commas and unpacked — IndexError when the file has too few lines,
ValueError unless exactly two fields. -/
def retrieve_credentials (file : String) : SparkApi.PyOutcome (String × String) :=
  let lines := (SparkApi.readlines file).map SparkApi.stripNewlines
  match lines.get? 0 with
  | none => .raised "IndexError: line 0"
  | some l0 =>
    if l0 = "clientId,clientSecret" ∨ l0 = "client_id,client_secret" then
      match lines.get? 1 with
      | none => .raised "IndexError: line 1"
      | some l1 =>
        match SparkApi.pySplitComma l1 with
        | [client_id, client_secret] => .ok (client_id, client_secret)
        | _ => .raised "ValueError: unpack"
    else .raised "RuntimeError: not a credentials file"

/-- JSON body of the token POST, spark_price_releases.py lines 152-154: a
`grantType` field only; this variant sends no `scopes` field. -/
def tokenBody : SparkApi.Json :=
  .obj [("grantType", .str "clientCredentials")]

/-- Token-exchange request built by `get_access_token` in
spark_price_releases.py. -/
def tokenRequest (client_id client_secret : String) : SparkApi.PostRequest :=
  ⟨"/oauth/token/", tokenBody, SparkApi.tokenHeaders client_id client_secret⟩

/-- Query-string and uri construction of `fetch_historical_price_releases`
(spark_price_releases.py lines 245-250): plain `str.format` interpolation
of the limit and the optional offset, no encoding step. -/
def fetch_historical_uri (ticker : String) (limit : Int) (offset : Option Int) :
    String :=
  let query_params := "?limit=" ++ toString limit
  let query_params :=
    match offset with
    | some o => query_params ++ "&offset=" ++ toString o
    | none => query_params
  "/v1.0/contracts/" ++ ticker ++ "/price-releases/" ++ query_params

end SparkPriceReleases

namespace NetbacksExample

/-- `retrieve_credentials` of the Netbacks tutorial is identical to the
spark_price_releases.py variant. JSON body of its token POST (lines
159-162). -/
def tokenBody : SparkApi.Json :=
  .obj [("grantType", .str "clientCredentials"),
        ("scopes", .str "read:netbacks,read:access,read:prices,read:routes")]

/-- Token-exchange request built by `get_access_token` in the Netbacks
tutorial script. -/
def tokenRequest (client_id client_secret : String) : SparkApi.PostRequest :=
  ⟨"/oauth/token/", tokenBody, SparkApi.tokenHeaders client_id client_secret⟩

/-- Query-string and uri construction of `fetch_netback` (Netbacks tutorial
lines 381-391): plain `str.format` interpolation of the fob-port ticker and
the optional release-date and via-point values, no encoding step. -/
def fetch_netback_uri (ticker : String) (release : Option String)
    (via : Option String) : String :=
  let query_params := "?fob-port=" ++ ticker
  let query_params :=
    match release with
    | some r => query_params ++ "&release-date=" ++ r
    | none => query_params
  let query_params :=
    match via with
    | some v => query_params ++ "&via-point=" ++ v
    | none => query_params
  "/v1.0/netbacks/" ++ query_params

end NetbacksExample

namespace HistoricalPricesExample

/-- JSON body of the token POST in the historical-prices tutorial (lines
165-168). -/
def tokenBody : SparkApi.Json :=
  .obj [("grantType", .str "clientCredentials"),
        ("scopes", .str "read:lng-freight-prices,read:routes")]

/-- Token-exchange request built by `get_access_token` in the
historical-prices tutorial script. -/
def tokenRequest (client_id client_secret : String) : SparkApi.PostRequest :=
  ⟨"/oauth/token/", tokenBody, SparkApi.tokenHeaders client_id client_secret⟩

end HistoricalPricesExample

namespace FreightRoutesExample

/-- JSON body of the token POST in the freight-routes tutorial (lines
161-164). -/
def tokenBody : SparkApi.Json :=
  .obj [("grantType", .str "clientCredentials"),
        ("scopes", .str "read:lng-freight-prices,read:routes")]

/-- Token-exchange request built by `get_access_token` in the
freight-routes tutorial script. -/
def tokenRequest (client_id client_secret : String) : SparkApi.PostRequest :=
  ⟨"/oauth/token/", tokenBody, SparkApi.tokenHeaders client_id client_secret⟩

end FreightRoutesExample


namespace SpecUrlEncoding

/-- Modelled from the spec: "appending query parameters as a URL-encoded
query string". Bytes in the RFC 3986 unreserved set (letters, digits,
hyphen, dot, underscore, tilde) pass through; every other byte is written
as a percent sign and two uppercase hex digits, as urllib quoting does.
This namespace follows the spec wording only, for comparison against the
uri builders embedded from the source. -/
def unreservedByte (b : Nat) : Bool :=
  decide (65 ≤ b ∧ b ≤ 90) || decide (97 ≤ b ∧ b ≤ 122) ||
    decide (48 ≤ b ∧ b ≤ 57) || decide (b = 45) || decide (b = 46) ||
    decide (b = 95) || decide (b = 126)

/-- Uppercase hexadecimal digit. -/
def hexDigit (n : Nat) : Char :=
  "0123456789ABCDEF".data.getD n '?'

/-- Percent-encoding of one byte. -/
def quoteByte (b : Nat) : List Char :=
  if unreservedByte b then [Char.ofNat b]
  else ['%', hexDigit (b / 16), hexDigit (b % 16)]

/-- Percent-encoding of a string over its UTF-8 bytes. -/
def quote (s : String) : String :=
  String.mk ((SparkApi.pyEncode s).flatMap quoteByte)

/-- URL-encoded serialization of an ordered parameter mapping, ampersand
separated, each pair as quoted key, equals sign, quoted value. -/
def urlEncodedQuery : List (String × String) → String
  | [] => ""
  | [kv] => quote kv.1 ++ "=" ++ quote kv.2
  | kv :: rest => quote kv.1 ++ "=" ++ quote kv.2 ++ "&" ++ urlEncodedQuery rest

/-- Character in the unreserved set (necessarily a single UTF-8 byte). -/
def unreservedChar (c : Char) : Bool := unreservedByte c.toNat

end SpecUrlEncoding

/-- Tiny stand-in for `json.loads` used to instantiate hypothesis-bearing
theorems at concrete inputs: it parses the few literal bodies the witnesses
send and rejects everything else. -/
def loadsStub : String → Except String SparkApi.Json := fun s =>
  if s = "null" then .ok .null
  else if s = "tok3600" then
    .ok (.obj [("accessToken", .str "abc123"), ("expiresIn", .num 3600)])
  else if s = "tok60" then
    .ok (.obj [("accessToken", .str "abc123"), ("expiresIn", .num 60)])
  else if s = "tokonly" then .ok (.obj [("accessToken", .str "abc123")])
  else if s = "toknum" then
    .ok (.obj [("accessToken", .num 5), ("expiresIn", .num 60)])
  else .error "json decode error"

/-- C2: with assertions enabled (plain `python`), `do_api_post_query`
returns a parsed body exactly when the HTTP status is 201; every other
status is a hard failure (HTTPError exit or failed assert) and no value
reaches the caller. -/
theorem token_post_requires_201 (loads : String → Except String SparkApi.Json)
    (resp : SparkApi.HttpResponse) :
    (resp.status ≠ 201 → ∀ v, SparkApi.do_api_post_query loads false resp ≠ .ok v) ∧
    (∀ j, resp.status = 201 → loads resp.body = .ok j →
      SparkApi.do_api_post_query loads false resp = .ok j) := by
  constructor
  · intro hne v
    unfold SparkApi.do_api_post_query SparkApi.urlopen
    by_cases h2 : 200 ≤ resp.status ∧ resp.status ≤ 299
    · simp [h2, hne]
    · simp [h2]
  · intro j h201 hloads
    unfold SparkApi.do_api_post_query SparkApi.urlopen
    have h2 : 200 ≤ resp.status ∧ resp.status ≤ 299 := by omega
    simp [h2, h201, hloads]

theorem token_post_requires_201_witness :
    (SparkApi.do_api_post_query loadsStub false ⟨400, "bad request"⟩ ≠ .ok .null) ∧
    SparkApi.do_api_post_query loadsStub false ⟨201, "null"⟩ = .ok .null :=
  ⟨(token_post_requires_201 loadsStub ⟨400, "bad request"⟩).1 (by decide) .null,
   (token_post_requires_201 loadsStub ⟨201, "null"⟩).2 .null rfl rfl⟩

/-- C3: with assertions enabled, `do_api_get_query` returns a parsed body
exactly when the HTTP status is 200; every other status is a hard failure
and no value reaches the caller. -/
theorem get_query_requires_200 (loads : String → Except String SparkApi.Json)
    (resp : SparkApi.HttpResponse) :
    (resp.status ≠ 200 → ∀ v, SparkApi.do_api_get_query loads false resp ≠ .ok v) ∧
    (∀ j, resp.status = 200 → loads resp.body = .ok j →
      SparkApi.do_api_get_query loads false resp = .ok j) := by
  constructor
  · intro hne v
    unfold SparkApi.do_api_get_query SparkApi.urlopen
    by_cases h2 : 200 ≤ resp.status ∧ resp.status ≤ 299
    · simp [h2, hne]
    · simp [h2]
  · intro j h200 hloads
    unfold SparkApi.do_api_get_query SparkApi.urlopen
    have h2 : 200 ≤ resp.status ∧ resp.status ≤ 299 := by omega
    simp [h2, h200, hloads]

theorem get_query_requires_200_witness :
    (SparkApi.do_api_get_query loadsStub false ⟨500, "oops"⟩ ≠ .ok .null) ∧
    SparkApi.do_api_get_query loadsStub false ⟨200, "null"⟩ = .ok .null :=
  ⟨(get_query_requires_200 loadsStub ⟨500, "oops"⟩).1 (by decide) .null,
   (get_query_requires_200 loadsStub ⟨200, "null"⟩).2 .null rfl rfl⟩

/-- C4: on a 200 response, `do_api_get_query` hands the caller exactly the
parse of the body — whatever value `json.loads` yields is returned with
nothing added, removed or modified, under both assertion semantics. -/
theorem get_query_returns_body_unchanged
    (loads : String → Except String SparkApi.Json) (optimized : Bool)
    (resp : SparkApi.HttpResponse) (j : SparkApi.Json)
    (h200 : resp.status = 200) (hloads : loads resp.body = .ok j) :
    SparkApi.do_api_get_query loads optimized resp = .ok j := by
  unfold SparkApi.do_api_get_query SparkApi.urlopen
  have h2 : 200 ≤ resp.status ∧ resp.status ≤ 299 := by omega
  simp [h2, h200, hloads]

theorem get_query_returns_body_unchanged_witness :
    SparkApi.do_api_get_query loadsStub false ⟨200, "tok3600"⟩
      = .ok (.obj [("accessToken", .str "abc123"), ("expiresIn", .num 3600)]) :=
  get_query_returns_body_unchanged loadsStub false ⟨200, "tok3600"⟩ _ rfl rfl

/-- C9 (counterexample): under the assert-stripped semantics (python -O),
a 200 response to the token POST reaches the JSON-parsing-and-return path
of `do_api_post_query` and its parse is returned, so the 201 check is not
always enforced. -/
theorem status_check_skipped_when_optimized :
    SparkApi.do_api_post_query loadsStub true ⟨200, "null"⟩ = .ok .null := rfl

/-- C9 (amended): the status checks are `assert` statements: with
assertions enabled a response whose status differs from the expected one
never reaches the JSON-parsing-and-return path (it exits on HTTPError or
fails the assert), but with assertions stripped every success (2xx) status
reaches that path in both helpers; non-2xx statuses still exit via
HTTPError. -/
theorem status_check_is_assert_only
    (loads : String → Except String SparkApi.Json) (resp : SparkApi.HttpResponse) :
    (resp.status ≠ 201 →
      SparkApi.do_api_post_query loads false resp = .exited 1 ∨
      SparkApi.do_api_post_query loads false resp = .assertFailed resp.body) ∧
    (resp.status ≠ 200 →
      SparkApi.do_api_get_query loads false resp = .exited 1 ∨
      SparkApi.do_api_get_query loads false resp = .assertFailed resp.body) ∧
    (200 ≤ resp.status ∧ resp.status ≤ 299 →
      SparkApi.do_api_post_query loads true resp =
        (match loads resp.body with
          | .error e => .raised e
          | .ok content => .ok content) ∧
      SparkApi.do_api_get_query loads true resp =
        (match loads resp.body with
          | .error e => .raised e
          | .ok content => .ok content)) := by
  refine ⟨fun hne => ?_, fun hne => ?_, fun h2 => ?_⟩
  · unfold SparkApi.do_api_post_query SparkApi.urlopen
    by_cases h2 : 200 ≤ resp.status ∧ resp.status ≤ 299
    · simp [h2, hne]
    · simp [h2]
  · unfold SparkApi.do_api_get_query SparkApi.urlopen
    by_cases h2 : 200 ≤ resp.status ∧ resp.status ≤ 299
    · simp [h2, hne]
    · simp [h2]
  · constructor
    · unfold SparkApi.do_api_post_query SparkApi.urlopen
      simp [h2]
    · unfold SparkApi.do_api_get_query SparkApi.urlopen
      simp [h2]

theorem status_check_is_assert_only_witness :
    (SparkApi.do_api_post_query loadsStub false ⟨200, "null"⟩ = .exited 1 ∨
      SparkApi.do_api_post_query loadsStub false ⟨200, "null"⟩ = .assertFailed "null") ∧
    (SparkApi.do_api_get_query loadsStub false ⟨201, "null"⟩ = .exited 1 ∨
      SparkApi.do_api_get_query loadsStub false ⟨201, "null"⟩ = .assertFailed "null") ∧
    (SparkApi.do_api_post_query loadsStub true ⟨200, "null"⟩ = .ok .null ∧
      SparkApi.do_api_get_query loadsStub true ⟨201, "null"⟩ = .ok .null) := by
  have h := status_check_is_assert_only loadsStub ⟨200, "null"⟩
  have h2 := status_check_is_assert_only loadsStub ⟨201, "null"⟩
  exact ⟨h.1 (by decide), h2.2.1 (by decide),
    (h.2.2 (by decide)).1, (h2.2.2 (by decide)).2⟩

namespace SparkApi

/-- Rebuilding a string from its characters gives it back. -/
theorem mk_data (s : String) : String.mk s.data = s := by cases s; rfl

/-- Strings with equal character lists are equal. -/
theorem stringEq_of_data {s t : String} (h : s.data = t.data) : s = t := by
  rw [← mk_data s, ← mk_data t, h]

/-- Reading characters up to a newline closes one line that keeps the
newline, and reading continues on the rest with an empty accumulator. -/
theorem readlinesAux_append_newline (cs : List Char) (h : '\n' ∉ cs) :
    ∀ (rest acc : List Char),
      readlinesAux (cs ++ '\n' :: rest) acc
        = String.mk (acc.reverse ++ cs ++ ['\n']) :: readlinesAux rest [] := by
  induction cs with
  | nil => intro rest acc; simp [readlinesAux]
  | cons c cs ih =>
    intro rest acc
    simp only [List.mem_cons, not_or] at h
    have hc : c ≠ '\n' := fun hh => h.1 hh.symm
    simp only [List.cons_append, readlinesAux, if_neg hc]
    show readlinesAux (cs ++ '\n' :: rest) (c :: acc) = _
    rw [ih (fun hm => h.2 hm) rest (c :: acc)]
    simp [List.reverse_cons, List.append_assoc]

/-- Reading a newline-free nonempty tail yields exactly one final line. -/
theorem readlinesAux_no_newline (cs : List Char) (h : '\n' ∉ cs) (hne : cs ≠ []) :
    ∀ acc : List Char, readlinesAux cs acc = [String.mk (acc.reverse ++ cs)] := by
  induction cs with
  | nil => cases hne rfl
  | cons c cs ih =>
    intro acc
    simp only [List.mem_cons, not_or] at h
    have hc : c ≠ '\n' := fun hh => h.1 hh.symm
    by_cases hcs : cs = []
    · subst hcs
      simp [readlinesAux, if_neg hc]
    · simp only [readlinesAux, if_neg hc]
      show readlinesAux cs (c :: acc) = _
      rw [ih (fun hm => h.2 hm) hcs (c :: acc)]
      simp [List.reverse_cons, List.append_assoc]

/-- Splitting a comma-free character list yields that single field. -/
theorem splitCommas_no_comma (cs : List Char) (h : ',' ∉ cs) :
    splitCommas cs = [cs] := by
  induction cs with
  | nil => rfl
  | cons c cs ih =>
    simp only [List.mem_cons, not_or] at h
    have hc : c ≠ ',' := fun hh => h.1 hh.symm
    rw [splitCommas, if_neg hc, ih (fun hm => h.2 hm)]

/-- Splitting at the first comma separates the comma-free head field. -/
theorem splitCommas_append (a b : List Char) (h : ',' ∉ a) :
    splitCommas (a ++ ',' :: b) = a :: splitCommas b := by
  induction a with
  | nil => simp [splitCommas]
  | cons c a ih =>
    simp only [List.mem_cons, not_or] at h
    have hc : c ≠ ',' := fun hh => h.1 hh.symm
    rw [List.cons_append, splitCommas, if_neg hc, ih (fun hm => h.2 hm)]

/-- The number of fields is the number of commas plus one. -/
theorem splitCommas_length (cs : List Char) :
    (splitCommas cs).length = cs.count ',' + 1 := by
  induction cs with
  | nil => rfl
  | cons c cs ih =>
    by_cases hc : c = ','
    · subst hc
      simp [splitCommas, List.count_cons, ih]
    · rw [splitCommas, if_neg hc]
      cases hsp : splitCommas cs with
      | nil => rw [hsp] at ih; simp at ih
      | cons p ps =>
        rw [hsp] at ih
        simp only [List.length_cons] at ih ⊢
        rw [List.count_cons]
        simp [hc, ih]

/-- Removing newlines from a newline-free string changes nothing. -/
theorem stripNewlines_mk_no_newline (l : List Char) (h : '\n' ∉ l) :
    stripNewlines (String.mk l) = String.mk l := by
  unfold stripNewlines
  congr 1
  rw [List.filter_eq_self]
  intro a ha
  simp only [ne_eq, decide_eq_true_eq]
  exact fun hh => h (hh ▸ ha)

/-- Removing newlines from a line with its terminator keeps the content. -/
theorem stripNewlines_mk_append_newline (l : List Char) (h : '\n' ∉ l) :
    stripNewlines (String.mk (l ++ ['\n'])) = String.mk l := by
  unfold stripNewlines
  congr 1
  simp only [List.filter_append]
  rw [List.filter_eq_self.mpr, List.filter_cons]
  · simp
  · intro a ha
    simp only [ne_eq, decide_eq_true_eq]
    exact fun hh => h (hh ▸ ha)

/-- A string occurs in any extension of itself to the right. -/
theorem pyContains_append (l extra : List Char) :
    pyContains (String.mk (l ++ extra)) (String.mk l) = true := by
  unfold pyContains
  simp only [List.any_eq_true]
  exact ⟨l ++ extra, (List.mem_tails _ _).mpr (List.suffix_refl _),
    List.isPrefixOf_iff_prefix.mpr (List.prefix_append l extra)⟩

/-- The credentials header line followed by further characters reads as the
header line followed by the lines of the remainder. -/
theorem readlines_credFile (tail : List Char) :
    readlines (String.mk ("clientId,clientSecret".data ++ '\n' :: tail))
      = "clientId,clientSecret\n" :: readlinesAux tail [] := by
  show readlinesAux ("clientId,clientSecret".data ++ '\n' :: tail) [] = _
  rw [readlinesAux_append_newline _ (by decide)]
  rfl

end SparkApi

namespace SpecUrlEncoding

/-- Percent-encoding changes nothing on a string of unreserved characters. -/
theorem quote_eq_self (s : String)
    (h : ∀ c ∈ s.data, unreservedChar c = true) : quote s = s := by
  have key : ∀ l : List Char, (∀ c ∈ l, unreservedChar c = true) →
      (l.flatMap SparkApi.utf8Bytes).flatMap quoteByte = l := by
    intro l hl
    induction l with
    | nil => rfl
    | cons c t ih =>
      rw [List.flatMap_cons, List.flatMap_append,
        ih (fun x hx => hl x (List.mem_cons_of_mem c hx))]
      have hc : unreservedChar c = true := hl c (List.mem_cons_self c t)
      have hb : unreservedByte c.toNat = true := hc
      have hlt : c.toNat < 128 := by
        simp only [unreservedByte, Bool.or_eq_true, decide_eq_true_eq] at hb
        omega
      have hbytes : SparkApi.utf8Bytes c = [c.toNat] := by
        unfold SparkApi.utf8Bytes
        simp [hlt]
      rw [hbytes]
      simp only [List.flatMap_cons, List.flatMap_nil, List.append_nil]
      rw [quoteByte, if_pos hb, Char.ofNat_toNat]
      rfl
  unfold quote SparkApi.pyEncode
  rw [key s.data h, SparkApi.mk_data]

end SpecUrlEncoding

/-- C1 (counterexample): at client_id "a" and client_secret "b" the
Authorization header of the token request carries the bare base64 text
"YTpi", not the RFC 7617 Basic-scheme presentation "Basic YTpi" of those
credentials, so the header does not use the HTTP Basic scheme as claimed. -/
theorem auth_header_lacks_basic_scheme :
    (SparkApiExample.tokenRequest "a" "b").headers.lookup "Authorization" = some "YTpi" ∧
    (SparkApiExample.tokenRequest "a" "b").headers.lookup "Authorization" ≠
      some ("Basic " ++ SparkApi.b64encode (SparkApi.pyEncode ("a" ++ ":" ++ "b"))) := by
  exact ⟨rfl, by decide⟩

/-- C1 (amended): for every client_id and client_secret, the token-exchange
request of each script carries an Authorization header whose value is
exactly base64 of `client_id:client_secret`, with no "Basic " scheme name
in front of it. -/
theorem auth_header_is_bare_base64 (client_id client_secret : String) :
    (SparkApiExample.tokenRequest client_id client_secret).headers.lookup "Authorization"
      = some (SparkApi.b64encode (SparkApi.pyEncode (client_id ++ ":" ++ client_secret))) ∧
    (SparkPriceReleases.tokenRequest client_id client_secret).headers.lookup "Authorization"
      = some (SparkApi.b64encode (SparkApi.pyEncode (client_id ++ ":" ++ client_secret))) ∧
    (NetbacksExample.tokenRequest client_id client_secret).headers.lookup "Authorization"
      = some (SparkApi.b64encode (SparkApi.pyEncode (client_id ++ ":" ++ client_secret))) ∧
    (HistoricalPricesExample.tokenRequest client_id client_secret).headers.lookup "Authorization"
      = some (SparkApi.b64encode (SparkApi.pyEncode (client_id ++ ":" ++ client_secret))) ∧
    (FreightRoutesExample.tokenRequest client_id client_secret).headers.lookup "Authorization"
      = some (SparkApi.b64encode (SparkApi.pyEncode (client_id ++ ":" ++ client_secret))) :=
  ⟨rfl, rfl, rfl, rfl, rfl⟩

/-- C5 (counterexample): two 201 token responses whose bodies differ only
in expiresIn (3600 versus 60 seconds) make get_access_token return one and
the same bare accessToken value, so the expiresIn lifetime is not part of
what the caller receives — the claimed pair of token and lifetime is not
returned. -/
theorem get_access_token_drops_expiresIn :
    SparkApi.get_access_token loadsStub false ⟨201, "tok3600"⟩
      = .ok (.str "abc123") ∧
    SparkApi.get_access_token loadsStub false ⟨201, "tok60"⟩
      = .ok (.str "abc123") := ⟨rfl, rfl⟩

/-- C5 (amended): on a 201 response whose body parses to an object with an
accessToken field, get_access_token reads both accessToken and expiresIn —
the success print first slices the accessToken value, a TypeError unless
that value is sliceable (a string, as specified), and a missing expiresIn
then raises a KeyError — but the function returns only the accessToken
value; the lifetime is printed, not returned. -/
theorem get_access_token_returns_token_only
    (loads : String → Except String SparkApi.Json) (resp : SparkApi.HttpResponse)
    (j tok : SparkApi.Json) (h201 : resp.status = 201)
    (hloads : loads resp.body = .ok j)
    (htok : j.getKey "accessToken" = some tok) :
    (tok.sliceable = true → ∀ e, j.getKey "expiresIn" = some e →
      SparkApi.get_access_token loads false resp = .ok tok) ∧
    (tok.sliceable = true → j.getKey "expiresIn" = none →
      SparkApi.get_access_token loads false resp = .raised "KeyError: expiresIn") ∧
    (tok.sliceable = false →
      SparkApi.get_access_token loads false resp
        = .raised "TypeError: accessToken not sliceable") := by
  have hpost : SparkApi.do_api_post_query loads false resp = .ok j := by
    unfold SparkApi.do_api_post_query SparkApi.urlopen
    have h2 : 200 ≤ resp.status ∧ resp.status ≤ 299 := by omega
    simp [h2, h201, hloads]
  refine ⟨fun hsl e he => ?_, fun hsl he => ?_, fun hsl => ?_⟩
  · unfold SparkApi.get_access_token
    rw [hpost]
    show SparkApi.get_access_token_result j = _
    unfold SparkApi.get_access_token_result
    rw [htok]
    show (if tok.sliceable = true then
        match j.getKey "expiresIn" with
        | none => SparkApi.PyOutcome.raised "KeyError: expiresIn"
        | some _ => SparkApi.PyOutcome.ok tok
      else SparkApi.PyOutcome.raised "TypeError: accessToken not sliceable") = _
    rw [hsl, he]
    rfl
  · unfold SparkApi.get_access_token
    rw [hpost]
    show SparkApi.get_access_token_result j = _
    unfold SparkApi.get_access_token_result
    rw [htok]
    show (if tok.sliceable = true then
        match j.getKey "expiresIn" with
        | none => SparkApi.PyOutcome.raised "KeyError: expiresIn"
        | some _ => SparkApi.PyOutcome.ok tok
      else SparkApi.PyOutcome.raised "TypeError: accessToken not sliceable") = _
    rw [hsl, he]
    rfl
  · unfold SparkApi.get_access_token
    rw [hpost]
    show SparkApi.get_access_token_result j = _
    unfold SparkApi.get_access_token_result
    rw [htok]
    show (if tok.sliceable = true then
        match j.getKey "expiresIn" with
        | none => SparkApi.PyOutcome.raised "KeyError: expiresIn"
        | some _ => SparkApi.PyOutcome.ok tok
      else SparkApi.PyOutcome.raised "TypeError: accessToken not sliceable") = _
    rw [hsl]
    rfl

theorem get_access_token_returns_token_only_witness :
    SparkApi.get_access_token loadsStub false ⟨201, "tok3600"⟩
        = .ok (.str "abc123") ∧
    SparkApi.get_access_token loadsStub false ⟨201, "tokonly"⟩
        = .raised "KeyError: expiresIn" ∧
    SparkApi.get_access_token loadsStub false ⟨201, "toknum"⟩
        = .raised "TypeError: accessToken not sliceable" :=
  ⟨(get_access_token_returns_token_only loadsStub ⟨201, "tok3600"⟩ _ _ rfl rfl rfl).1
      rfl (.num 3600) rfl,
   (get_access_token_returns_token_only loadsStub ⟨201, "tokonly"⟩ _ _ rfl rfl rfl).2.1
      rfl rfl,
   (get_access_token_returns_token_only loadsStub ⟨201, "toknum"⟩ _ _ rfl rfl rfl).2.2
      rfl⟩

/-- C6 (counterexample): the spark_price_releases.py token body carries no
scopes field at all (it still posts to the fixed endpoint), so it is not
true that every variant posts a scopes field. -/
theorem price_releases_token_body_lacks_scopes :
    (SparkPriceReleases.tokenRequest "a" "b").body.getKey "scopes" = none ∧
    (SparkPriceReleases.tokenRequest "a" "b").uri = "/oauth/token/" := ⟨rfl, rfl⟩

/-- C6 (amended): every variant posts to the fixed /oauth/token/ endpoint
a JSON body whose grantType field is "clientCredentials";
spark_api_example.py and the three tutorial scripts also post a scopes
string, while spark_price_releases.py posts grantType only and has no
scopes field. -/
theorem token_request_shapes (client_id client_secret : String) :
    ((SparkApiExample.tokenRequest client_id client_secret).uri = "/oauth/token/" ∧
      (SparkApiExample.tokenRequest client_id client_secret).body.getKey "grantType"
        = some (.str "clientCredentials") ∧
      (SparkApiExample.tokenRequest client_id client_secret).body.getKey "scopes"
        = some (.str "read:lng-freight-prices,read:routes")) ∧
    ((SparkPriceReleases.tokenRequest client_id client_secret).uri = "/oauth/token/" ∧
      (SparkPriceReleases.tokenRequest client_id client_secret).body.getKey "grantType"
        = some (.str "clientCredentials") ∧
      (SparkPriceReleases.tokenRequest client_id client_secret).body.getKey "scopes"
        = none) ∧
    ((NetbacksExample.tokenRequest client_id client_secret).uri = "/oauth/token/" ∧
      (NetbacksExample.tokenRequest client_id client_secret).body.getKey "grantType"
        = some (.str "clientCredentials") ∧
      (NetbacksExample.tokenRequest client_id client_secret).body.getKey "scopes"
        = some (.str "read:netbacks,read:access,read:prices,read:routes")) ∧
    ((HistoricalPricesExample.tokenRequest client_id client_secret).uri = "/oauth/token/" ∧
      (HistoricalPricesExample.tokenRequest client_id client_secret).body.getKey "grantType"
        = some (.str "clientCredentials") ∧
      (HistoricalPricesExample.tokenRequest client_id client_secret).body.getKey "scopes"
        = some (.str "read:lng-freight-prices,read:routes")) ∧
    ((FreightRoutesExample.tokenRequest client_id client_secret).uri = "/oauth/token/" ∧
      (FreightRoutesExample.tokenRequest client_id client_secret).body.getKey "grantType"
        = some (.str "clientCredentials") ∧
      (FreightRoutesExample.tokenRequest client_id client_secret).body.getKey "scopes"
        = some (.str "read:lng-freight-prices,read:routes")) :=
  ⟨⟨rfl, rfl, rfl⟩, ⟨rfl, rfl, rfl⟩, ⟨rfl, rfl, rfl⟩, ⟨rfl, rfl, rfl⟩, ⟨rfl, rfl, rfl⟩⟩

/-- C7 (counterexample): on the newline-terminated credentials file with
header clientId,clientSecret and data line myid,mysecret, the
spark_api_example.py variant returns the secret with the trailing newline
still attached, which is not exactly the pair from the file. -/
theorem credentials_secret_keeps_newline :
    SparkApiExample.retrieve_credentials "clientId,clientSecret\nmyid,mysecret\n"
      = .ok ("myid", "mysecret\n") ∧ ("mysecret\n" : String) ≠ "mysecret" :=
  ⟨rfl, by decide⟩

open SparkApi in
/-- C7 (amended): for a credentials file made of the header line and a data
line id,secret whose fields contain no comma and no newline, the
readlines-based variant (spark_price_releases.py and the tutorial scripts)
returns exactly the pair whether or not the file ends in a newline; the
spark_api_example.py variant returns exactly the pair only when the data
line is unterminated — on a newline-terminated file the returned secret
carries the trailing newline. -/
theorem retrieve_credentials_exact_pairs (id secret : String)
    (hid : ',' ∉ id.data ∧ '\n' ∉ id.data)
    (hsec : ',' ∉ secret.data ∧ '\n' ∉ secret.data) :
    SparkPriceReleases.retrieve_credentials
        ("clientId,clientSecret\n" ++ id ++ "," ++ secret) = .ok (id, secret) ∧
    SparkPriceReleases.retrieve_credentials
        ("clientId,clientSecret\n" ++ id ++ "," ++ secret ++ "\n") = .ok (id, secret) ∧
    SparkApiExample.retrieve_credentials
        ("clientId,clientSecret\n" ++ id ++ "," ++ secret) = .ok (id, secret) ∧
    SparkApiExample.retrieve_credentials
        ("clientId,clientSecret\n" ++ id ++ "," ++ secret ++ "\n")
      = .ok (id, secret ++ "\n") := by
  have hnl : '\n' ∉ id.data ++ ',' :: secret.data := by
    simp [List.mem_append, hid.2, hsec.2]
  have hne : id.data ++ ',' :: secret.data ≠ [] := by simp
  have hfile1 : ("clientId,clientSecret\n" ++ id ++ "," ++ secret)
      = String.mk ("clientId,clientSecret".data ++ '\n' :: (id.data ++ ',' :: secret.data)) :=
    stringEq_of_data (by simp [String.data_append])
  have hfile2 : ("clientId,clientSecret\n" ++ id ++ "," ++ secret ++ "\n")
      = String.mk ("clientId,clientSecret".data
          ++ '\n' :: ((id.data ++ ',' :: secret.data) ++ '\n' :: [])) :=
    stringEq_of_data (by simp [String.data_append])
  have hsecnl : String.mk (secret.data ++ ['\n']) = secret ++ "\n" :=
    stringEq_of_data (by simp [String.data_append])
  refine ⟨?_, ?_, ?_, ?_⟩
  · rw [hfile1]
    unfold SparkPriceReleases.retrieve_credentials
    rw [readlines_credFile, readlinesAux_no_newline _ hnl hne]
    simp only [List.map_cons, List.map_nil, List.reverse_nil, List.nil_append]
    rw [show stripNewlines "clientId,clientSecret\n" = "clientId,clientSecret" from by decide]
    rw [stripNewlines_mk_no_newline _ hnl]
    simp only [List.get?]
    rw [if_pos (Or.inl trivial)]
    unfold pySplitComma
    rw [show (String.mk (id.data ++ ',' :: secret.data)).data
         = id.data ++ ',' :: secret.data from rfl]
    rw [splitCommas_append _ _ hid.1, splitCommas_no_comma _ hsec.1]
    simp only [List.map_cons, List.map_nil, mk_data]
  · rw [hfile2]
    unfold SparkPriceReleases.retrieve_credentials
    rw [readlines_credFile, readlinesAux_append_newline _ hnl]
    simp only [List.map_cons, List.map_nil, List.reverse_nil, List.nil_append]
    rw [show stripNewlines "clientId,clientSecret\n" = "clientId,clientSecret" from by decide]
    rw [show readlinesAux [] [] = [] from rfl]
    rw [stripNewlines_mk_append_newline _ hnl]
    simp only [List.map_cons, List.map_nil, List.get?]
    rw [if_pos (Or.inl trivial)]
    unfold pySplitComma
    rw [show (String.mk (id.data ++ ',' :: secret.data)).data
         = id.data ++ ',' :: secret.data from rfl]
    rw [splitCommas_append _ _ hid.1, splitCommas_no_comma _ hsec.1]
    simp only [List.map_cons, List.map_nil, mk_data]
  · rw [hfile1]
    unfold SparkApiExample.retrieve_credentials
    rw [readlines_credFile, readlinesAux_no_newline _ hnl hne]
    simp only [List.reverse_nil, List.nil_append, List.getD, List.get?,
      Option.getD_some]
    rw [if_pos (show pyContains "clientId,clientSecret\n" "clientId,clientSecret" = true
          from by decide)]
    unfold pySplitComma
    rw [show (String.mk (id.data ++ ',' :: secret.data)).data
         = id.data ++ ',' :: secret.data from rfl]
    rw [splitCommas_append _ _ hid.1, splitCommas_no_comma _ hsec.1]
    simp only [List.map_cons, List.map_nil, mk_data]
  · rw [hfile2]
    unfold SparkApiExample.retrieve_credentials
    rw [readlines_credFile, readlinesAux_append_newline _ hnl]
    rw [show readlinesAux [] [] = [] from rfl]
    simp only [List.reverse_nil, List.nil_append, List.getD, List.get?,
      Option.getD_some]
    rw [if_pos (show pyContains "clientId,clientSecret\n" "clientId,clientSecret" = true
          from by decide)]
    unfold pySplitComma
    rw [show (String.mk ((id.data ++ ',' :: secret.data) ++ ['\n'])).data
         = id.data ++ ',' :: (secret.data ++ ['\n']) from by simp]
    rw [splitCommas_append _ _ hid.1,
      splitCommas_no_comma _ (by simp [List.mem_append, hsec.1])]
    simp only [List.map_cons, List.map_nil, mk_data, hsecnl]

theorem retrieve_credentials_exact_pairs_witness :
    SparkPriceReleases.retrieve_credentials
        ("clientId,clientSecret\n" ++ "myid" ++ "," ++ "mysecret")
      = .ok ("myid", "mysecret") ∧
    SparkPriceReleases.retrieve_credentials
        ("clientId,clientSecret\n" ++ "myid" ++ "," ++ "mysecret" ++ "\n")
      = .ok ("myid", "mysecret") ∧
    SparkApiExample.retrieve_credentials
        ("clientId,clientSecret\n" ++ "myid" ++ "," ++ "mysecret")
      = .ok ("myid", "mysecret") ∧
    SparkApiExample.retrieve_credentials
        ("clientId,clientSecret\n" ++ "myid" ++ "," ++ "mysecret" ++ "\n")
      = .ok ("myid", "mysecret" ++ "\n") :=
  retrieve_credentials_exact_pairs "myid" "mysecret"
    ⟨by decide, by decide⟩ ⟨by decide, by decide⟩

/-- C8 (counterexample): fetch_netback interpolates parameter values into
the query string verbatim: with via-point "a b" the built uri carries the
raw space and differs from the URL-encoded query string, in which that
value would be percent-encoded, so reserved characters are not
percent-encoded as claimed. -/
theorem fetch_netback_uri_not_urlencoded :
    NetbacksExample.fetch_netback_uri "sabine-pass" (some "2023-01-01") (some "a b")
      = "/v1.0/netbacks/?fob-port=sabine-pass&release-date=2023-01-01&via-point=a b" ∧
    NetbacksExample.fetch_netback_uri "sabine-pass" (some "2023-01-01") (some "a b")
      ≠ "/v1.0/netbacks/" ++ "?" ++ SpecUrlEncoding.urlEncodedQuery
          [("fob-port", "sabine-pass"), ("release-date", "2023-01-01"),
           ("via-point", "a b")] := by
  constructor
  · decide
  · decide

/-- C8 (amended): the fetchers append query parameters by plain string
interpolation with no URL-encoding step, so values appear verbatim in the
request uri; the result coincides with the URL-encoded query string
exactly when every parameter value consists of URL-unreserved characters,
as the repository-supplied values do. -/
theorem query_values_interpolated_verbatim (ticker release via : String)
    (limit offset : Int)
    (ht : ∀ c ∈ ticker.data, SpecUrlEncoding.unreservedChar c = true)
    (hr : ∀ c ∈ release.data, SpecUrlEncoding.unreservedChar c = true)
    (hv : ∀ c ∈ via.data, SpecUrlEncoding.unreservedChar c = true) :
    NetbacksExample.fetch_netback_uri ticker (some release) (some via)
      = "/v1.0/netbacks/" ++ "?" ++ SpecUrlEncoding.urlEncodedQuery
          [("fob-port", ticker), ("release-date", release), ("via-point", via)] ∧
    SparkPriceReleases.fetch_historical_uri ticker limit (some offset)
      = "/v1.0/contracts/" ++ ticker ++ "/price-releases/" ++ "?limit="
          ++ toString limit ++ "&offset=" ++ toString offset := by
  constructor
  · simp only [NetbacksExample.fetch_netback_uri, SpecUrlEncoding.urlEncodedQuery]
    rw [SpecUrlEncoding.quote_eq_self _ ht, SpecUrlEncoding.quote_eq_self _ hr,
      SpecUrlEncoding.quote_eq_self _ hv,
      SpecUrlEncoding.quote_eq_self "fob-port" (by decide),
      SpecUrlEncoding.quote_eq_self "release-date" (by decide),
      SpecUrlEncoding.quote_eq_self "via-point" (by decide)]
    apply SparkApi.stringEq_of_data
    simp [String.data_append]
  · unfold SparkPriceReleases.fetch_historical_uri
    apply SparkApi.stringEq_of_data
    simp [String.data_append]

theorem query_values_interpolated_verbatim_witness :
    NetbacksExample.fetch_netback_uri "sabine-pass" (some "2023-01-01") (some "cogh")
      = "/v1.0/netbacks/" ++ "?" ++ SpecUrlEncoding.urlEncodedQuery
          [("fob-port", "sabine-pass"), ("release-date", "2023-01-01"),
           ("via-point", "cogh")] ∧
    SparkPriceReleases.fetch_historical_uri "sabine-pass" 4 (some 0)
      = "/v1.0/contracts/" ++ "sabine-pass" ++ "/price-releases/" ++ "?limit="
          ++ toString (4 : Int) ++ "&offset=" ++ toString (0 : Int) :=
  query_values_interpolated_verbatim "sabine-pass" "2023-01-01" "cogh" 4 0
    (by decide) (by decide) (by decide)

open SparkApi in
/-- C10: when the header line is accepted but the data line has not exactly
one comma (no comma, or two or more), both retrieve_credentials variants
raise — an unpacking ValueError, or an IndexError on a missing line — and
return no credentials pair; fields are never truncated or merged. -/
theorem bad_data_line_errors (dl : List Char) (hnl : '\n' ∉ dl)
    (hc : dl.count ',' ≠ 1) :
    (∀ p, SparkApiExample.retrieve_credentials
        (String.mk ("clientId,clientSecret".data ++ '\n' :: dl)) ≠ .ok p) ∧
    (∀ p, SparkPriceReleases.retrieve_credentials
        (String.mk ("clientId,clientSecret".data ++ '\n' :: dl)) ≠ .ok p) := by
  have hlen : (splitCommas dl).length ≠ 2 := by
    rw [splitCommas_length]; omega
  by_cases hne : dl = []
  · subst hne
    constructor
    · intro p
      unfold SparkApiExample.retrieve_credentials
      rw [readlines_credFile, show readlinesAux [] [] = [] from rfl]
      simp only [List.getD, List.get?, Option.getD_some]
      rw [if_pos (show pyContains "clientId,clientSecret\n" "clientId,clientSecret" = true
            from by decide)]
      simp [pySplitComma, splitCommas]
    · intro p
      unfold SparkPriceReleases.retrieve_credentials
      rw [readlines_credFile, show readlinesAux [] [] = [] from rfl]
      simp only [List.map_cons, List.map_nil, List.get?]
      split <;> simp
  · constructor
    · intro p
      unfold SparkApiExample.retrieve_credentials
      rw [readlines_credFile, readlinesAux_no_newline _ hnl hne]
      simp only [List.reverse_nil, List.nil_append, List.getD, List.get?,
        Option.getD_some]
      rw [if_pos (show pyContains "clientId,clientSecret\n" "clientId,clientSecret" = true
            from by decide)]
      unfold pySplitComma
      rw [show (String.mk dl).data = dl from rfl]
      rcases hsp : splitCommas dl with _ | ⟨a, _ | ⟨b, _ | ⟨c, rest⟩⟩⟩
      · simp
      · simp
      · rw [hsp] at hlen; simp at hlen
      · simp
    · intro p
      unfold SparkPriceReleases.retrieve_credentials
      rw [readlines_credFile, readlinesAux_no_newline _ hnl hne]
      simp only [List.map_cons, List.map_nil, List.reverse_nil, List.nil_append,
        List.get?]
      rw [show stripNewlines "clientId,clientSecret\n" = "clientId,clientSecret" from by decide]
      rw [stripNewlines_mk_no_newline _ hnl]
      rw [if_pos (Or.inl rfl)]
      unfold pySplitComma
      rw [show (String.mk dl).data = dl from rfl]
      rcases hsp : splitCommas dl with _ | ⟨a, _ | ⟨b, _ | ⟨c, rest⟩⟩⟩
      · simp
      · simp
      · rw [hsp] at hlen; simp at hlen
      · simp

theorem bad_data_line_errors_witness :
    (SparkApiExample.retrieve_credentials
        (String.mk ("clientId,clientSecret".data ++ '\n' :: "id,se,cret".data))
      ≠ .ok ("id", "se,cret")) ∧
    (SparkPriceReleases.retrieve_credentials
        (String.mk ("clientId,clientSecret".data ++ '\n' :: "id,se,cret".data))
      ≠ .ok ("id", "se,cret")) :=
  ⟨(bad_data_line_errors "id,se,cret".data (by decide) (by decide)).1 ("id", "se,cret"),
   (bad_data_line_errors "id,se,cret".data (by decide) (by decide)).2 ("id", "se,cret")⟩
